import Mathlib

/-
Verification of the xian-uwp wallet protocol against its natural-language
specification.  The repository ships the protocol data models
(src/protocol/models.py) together with the test suite; the runtime modules
(xian_uwp.server, xian_uwp.client) are not part of the source tree, so the
operations below are modelled from the specification text, with the concrete
behaviour pinned by the assertions of the in-tree tests
(src/tests/test_unlock_rate_limiting.py, test_max_sessions_enforcement.py,
test_auth.py, test_async_sync_shutdown.py, test_cors.py, test_client.py).
Timestamps are modelled as natural numbers counting whole seconds.
-/

namespace XianUWP

/-- Permission enum from src/protocol/models.py (`Permission`): the five
capabilities a DApp may request. -/
inductive Permission where
  | walletInfo
  | balance
  | transactions
  | signMessage
  | addToken
deriving DecidableEq, Repr

/-- String values of the permission enum, as in src/protocol/models.py. -/
def parsePermission (s : String) : Option Permission :=
  if s = "wallet_info" then some .walletInfo
  else if s = "balance" then some .balance
  else if s = "transactions" then some .transactions
  else if s = "sign_message" then some .signMessage
  else if s = "add_token" then some .addToken
  else none

namespace ProtocolConfig

/-- Protocol constant from src/protocol/models.py (`ProtocolConfig.MAX_SESSIONS`). -/
def MAX_SESSIONS : Nat := 10

/-- Protocol constant from src/protocol/models.py (`ProtocolConfig.CACHE_TTL_SECONDS`). -/
def CACHE_TTL_SECONDS : Nat := 30

end ProtocolConfig

/-- Modelled from the spec: the per-source rate-limit record of §3
(`RateLimitRecord — {source_key, attempts, last_attempt, locked_until?}`),
matching the dict entries `{"attempts", "last_attempt", "locked_until"}`
used by src/tests/test_unlock_rate_limiting.py. -/
structure RateLimitRecord where
  attempts : Nat
  last_attempt : Nat
  locked_until : Option Nat
deriving DecidableEq, Repr

/-- Modelled from the spec: the backoff cap of §4.3 — delays are capped at
60 seconds (test_unlock_max_delay_cap). -/
def maxDelaySeconds : Nat := 60

/-- Modelled from the spec: §4.3 — after 5 cumulative failed attempts the
source is locked out. -/
def lockoutThreshold : Nat := 5

/-- Modelled from the spec: the fixed lockout cool-down window of §4.3.
§4.3 gives "(e.g. 5 minutes)" only as an illustration, while the binding
testable property of §8 fixes the reported lockout wait at ≤ 60 seconds,
so the window is taken as 60 seconds. -/
def lockoutDurationSeconds : Nat := 60

/-- Modelled from the spec: §4.3 — the delay required before the next
attempt when `attempts` failures are on record: `min(2^(attempts-1), 60)`
seconds since the previous attempt (so before attempt n, with n-1 recorded
failures, the delay is `min(2^(n-2), 60)`). -/
def requiredDelay (attempts : Nat) : Nat :=
  min (2 ^ (attempts - 1)) maxDelaySeconds

/-- Outcome of one call to the unlock endpoint, from the spec's error
taxonomy (§7) and the status codes asserted by
src/tests/test_unlock_rate_limiting.py: 200 unlocked, 401 invalid
password (the credential check was reached and failed), 429 with
`TOO_MANY_ATTEMPTS` or `ACCOUNT_LOCKED` and the remaining wait. -/
inductive UnlockOutcome where
  | unlocked
  | invalidPassword
  | tooManyAttempts (wait : Nat)
  | accountLocked (wait : Nat)
deriving DecidableEq, Repr

/-- Modelled from the spec: the rate-limit gate run before the credential
check (§4.3).  `some err` rejects the attempt without touching the
credential check; `none` lets the attempt through.  An active lock yields
`AccountLocked` with the remaining lock duration; otherwise an attempt
made before `requiredDelay` has elapsed since the previous attempt yields
`TooManyAttempts` with the remaining wait. -/
def rateLimitGate (rec? : Option RateLimitRecord) (now : Nat) : Option UnlockOutcome :=
  match rec? with
  | none => none
  | some r =>
    match r.locked_until with
    | some u => if now < u then some (.accountLocked (u - now)) else none
    | none =>
      if now - r.last_attempt < requiredDelay r.attempts then
        some (.tooManyAttempts (requiredDelay r.attempts - (now - r.last_attempt)))
      else none

/-- Modelled from the spec: purge a record whose lock has expired (§4.3:
records are purged "once any lock has expired"). -/
def purgeExpiredLock (rec? : Option RateLimitRecord) (now : Nat) : Option RateLimitRecord :=
  match rec? with
  | none => none
  | some r =>
    match r.locked_until with
    | some u => if u ≤ now then none else some r
    | none => some r

/-- Modelled from the spec: one unlock attempt against the per-source
record (§4.3).  First the expired-lock purge, then the rate-limit gate
(rejections leave the record unchanged and never consult the password);
if the gate passes, the credential check runs: success clears the record
entirely (§4.3), failure increments `attempts`, stamps `last_attempt`,
and on reaching 5 cumulative failures sets the lockout window. -/
def attemptUnlock (rec? : Option RateLimitRecord) (passwordOk : Bool) (now : Nat) :
    UnlockOutcome × Option RateLimitRecord :=
  let rec' := purgeExpiredLock rec? now
  match rateLimitGate rec' now with
  | some out => (out, rec')
  | none =>
    if passwordOk then
      (.unlocked, none)
    else
      let a := (match rec' with | none => 0 | some r => r.attempts) + 1
      (.invalidPassword,
        some { attempts := a, last_attempt := now,
               locked_until :=
                 if lockoutThreshold ≤ a then some (now + lockoutDurationSeconds) else none })

/-- The server's per-source table `unlock_attempts`, keyed by caller
address (src/tests/test_unlock_rate_limiting.py uses a dict keyed by
client IP). -/
abbrev UnlockAttempts := List (String × RateLimitRecord)

/-- Look up the rate-limit record of one source. -/
def lookupRecord (m : UnlockAttempts) (src : String) : Option RateLimitRecord :=
  (m.find? (fun e => e.1 = src)).map (fun e => e.2)

/-- Store (or erase, for `none`) the rate-limit record of one source. -/
def setRecord (m : UnlockAttempts) (src : String) (r? : Option RateLimitRecord) :
    UnlockAttempts :=
  match r? with
  | none => m.filter (fun e => ¬ e.1 = src)
  | some r => (src, r) :: m.filter (fun e => ¬ e.1 = src)

/-- Modelled from the spec: the unlock endpoint's handling of one request
from a given source at a given time (§4.3, §6 `/wallet/unlock`). -/
def serverUnlock (m : UnlockAttempts) (src : String) (passwordOk : Bool) (now : Nat) :
    UnlockOutcome × UnlockAttempts :=
  let r := attemptUnlock (lookupRecord m src) passwordOk now
  (r.1, setRecord m src r.2)

/-- A run of unlock attempts against one source's record: each entry is
(password correct?, time of the attempt); returns the outcomes in order
and the final record. -/
def runUnlocks (rec? : Option RateLimitRecord) (tries : List (Bool × Nat)) :
    List UnlockOutcome × Option RateLimitRecord :=
  match tries with
  | [] => ([], rec?)
  | (ok, t) :: rest =>
    let r := attemptUnlock rec? ok t
    let rr := runUnlocks r.2 rest
    (r.1 :: rr.1, rr.2)

/-- Error codes from the spec's taxonomy (§7), restricted to the ones the
verified operations produce. -/
inductive ErrorCode where
  | invalidRequest
  | tooManyPendingRequests
  | invalidState
  | notFound
deriving DecidableEq, Repr

/-- Pending authorization request, from src/protocol/models.py
(`PendingRequest`); request ids are modelled as the counter value used to
mint them. -/
structure PendingRequest where
  request_id : Nat
  app_name : String
  app_url : String
  permissions : List Permission
  description : Option String
  status : String
deriving DecidableEq, Repr

/-- Session, from src/protocol/models.py (`Session`): the granted
permission set under an opaque token (the timestamp fields of the source
model play no role in the verified claims). -/
structure Session where
  token : String
  app_name : String
  app_url : String
  permissions : List Permission
deriving DecidableEq, Repr

/-- Modelled from the spec: the server-side state holding pending
authorization requests (insertion order, §4.1 `list_pending`), active
sessions, and the fresh-id counter. -/
structure RegistryState where
  pending : List PendingRequest
  sessions : List Session
  next_id : Nat
deriving DecidableEq, Repr

/-- The empty registry of a freshly started server. -/
def RegistryState.empty : RegistryState :=
  { pending := [], sessions := [], next_id := 0 }

/-- Validation of the permission names of a creation call against the
permission enum (§4.1): every name must be a known permission value,
otherwise the request is rejected. -/
def parsePermissions : List String → Option (List Permission)
  | [] => some []
  | n :: rest =>
    match parsePermission n, parsePermissions rest with
    | some p, some ps => some (p :: ps)
    | _, _ => none

/-- One DApp authorization-request creation call's input
(§6 `/auth/request` body). -/
structure CreateInput where
  app_name : String
  app_url : String
  permissions : List String
  description : Option String
deriving DecidableEq, Repr

/-- Modelled from the spec: `create` of §4.1 — permission names are
validated against the enum and the stored set is deduplicated; the call
fails with `TooManyPendingRequests` when the registry already holds
`MAX_SESSIONS` pending requests, leaving the state untouched.  An empty
permission list is rejected as a validation error: the in-tree test
test_auth.py::test_auth_request_empty_permissions asserts a 422 response
for it, contrary to §4.1's "empty permission sets are allowed". -/
def createRequest (st : RegistryState) (app_name app_url : String)
    (perms : List String) (description : Option String) :
    Except ErrorCode (Nat × RegistryState) :=
  match parsePermissions perms with
  | none => .error .invalidRequest
  | some ps =>
    if ps.isEmpty then .error .invalidRequest
    else if ProtocolConfig.MAX_SESSIONS ≤ st.pending.length then
      .error .tooManyPendingRequests
    else
      let req : PendingRequest :=
        { request_id := st.next_id, app_name := app_name, app_url := app_url,
          permissions := ps.dedup, description := description, status := "pending" }
      .ok (st.next_id, { st with pending := st.pending ++ [req], next_id := st.next_id + 1 })

/-- A creation call's input passes body validation when every permission
name is a known enum value and the list is non-empty. -/
def validInput (i : CreateInput) : Bool :=
  match parsePermissions i.permissions with
  | none => false
  | some ps => !ps.isEmpty

/-- Run a sequence of creation calls, counting the successful ones; a
rejected call leaves the registry as it was. -/
def runCreates (st : RegistryState) (inputs : List CreateInput) : Nat × RegistryState :=
  match inputs with
  | [] => (0, st)
  | i :: rest =>
    match createRequest st i.app_name i.app_url i.permissions i.description with
    | .ok r => let rr := runCreates r.2 rest; (rr.1 + 1, rr.2)
    | .error _ => runCreates st rest

/-- Modelled from the spec: `approve` of §4.1 — only valid from `pending`;
mints a Session scoped to the request's permissions, removes the request
from the pending set (one-shot consumption), and fails with
`InvalidState` when the id is not among the pending requests. -/
def approve (st : RegistryState) (rid : Nat) : Except ErrorCode (Session × RegistryState) :=
  match st.pending.find? (fun r => r.request_id == rid) with
  | none => .error .invalidState
  | some req =>
    let sess : Session :=
      { token := "tok" ++ Nat.repr st.next_id, app_name := req.app_name,
        app_url := req.app_url, permissions := req.permissions }
    .ok (sess,
      { st with pending := st.pending.filter (fun r => ¬ r.request_id == rid),
                sessions := st.sessions ++ [sess], next_id := st.next_id + 1 })

/-- Modelled from the spec: `deny` of §4.1 — resolves a pending request
without creating a session; like `approve`, it fails with `InvalidState`
when the id is not among the pending requests. -/
def deny (st : RegistryState) (rid : Nat) : Except ErrorCode RegistryState :=
  match st.pending.find? (fun r => r.request_id == rid) with
  | none => .error .invalidState
  | some _ =>
    .ok { st with pending := st.pending.filter (fun r => ¬ r.request_id == rid) }

/-- The client-side response cache `_cache`: a map from key to
(value, stored_at), as in
src/tests/test_async_sync_shutdown.py::test_async_client_cache_management. -/
abbrev ClientCache := List (String × String × Nat)

/-- Modelled from the spec: `set(key, value)` of §4.5 — stores the value
under the key with the current timestamp. -/
def setCache (c : ClientCache) (key value : String) (now : Nat) : ClientCache :=
  (key, value, now) :: c.filter (fun e => ¬ e.1 = key)

/-- The raw dictionary lookup underlying the cache: the stored
(value, stored_at) pair of a key, if any. -/
def cacheLookup (c : ClientCache) (key : String) : Option (String × Nat) :=
  match c.find? (fun e => e.1 = key) with
  | none => none
  | some e => some e.2

/-- Modelled from the spec: `get(key, ttl)` of §4.5 — returns the value
exactly when `now - stored_at < ttl`; an older entry is treated as absent
but is not removed (lazy expiry: the lookup does not modify the cache). -/
def getCached (c : ClientCache) (key : String) (ttl now : Nat) : Option String :=
  match cacheLookup c key with
  | none => none
  | some vt => if now - vt.2 < ttl then some vt.1 else none

/-- Modelled from the spec: `clear_matching(prefix)` of §4.5 — removes
exactly the entries whose keys start with the given pattern
(`_clear_cache_pattern` in the tests). -/
def clearCachePattern (c : ClientCache) (pat : String) : ClientCache :=
  c.filter (fun e => ¬ e.1.startsWith pat)

/-- Wallet type enum from src/protocol/models.py (`WalletType`). -/
inductive WalletType where
  | desktop
  | web
  | cli
  | hardware
deriving DecidableEq, Repr

/-- Wallet information, from src/protocol/models.py (`WalletInfo`). -/
structure WalletInfo where
  address : String
  truncated_address : String
  locked : Bool
  chain_id : String
  network : String
  wallet_type : WalletType
deriving DecidableEq, Repr

/-- Modelled from the spec: the state an async client holds — session
token, fetched wallet info, response cache, and whether the push
(WebSocket) and HTTP connections are open (§4.6). -/
structure AsyncClientState where
  session_token : Option String
  wallet_info : Option WalletInfo
  cache : ClientCache
  websocket_open : Bool
  http_client_open : Bool
deriving DecidableEq, Repr

/-- Modelled from the spec: `disconnect()` of §4.6 — closes any open push
(WebSocket) connection and the HTTP client, clears the session token, the
stored wallet info, and the cached data. -/
def disconnect (c : AsyncClientState) : AsyncClientState :=
  let afterClose := { c with websocket_open := false, http_client_open := false }
  { afterClose with session_token := none, wallet_info := none, cache := [] }

/-- CORS policy configuration (§6): the allowlisted origins plus the
credentials/methods/headers switches asserted by src/tests/test_cors.py. -/
structure CORSConfig where
  allow_origins : List String
  allow_credentials : Bool
  allow_methods : List String
  allow_headers : List String
deriving DecidableEq, Repr

/-- The production CORS preset: an explicit allowlist with credentials
enabled (src/tests/test_cors.py::test_cors_config_production). -/
def CORSConfig.production (origins : List String) : CORSConfig :=
  { allow_origins := origins, allow_credentials := true,
    allow_methods := ["GET", "POST", "OPTIONS"],
    allow_headers := ["Content-Type", "Authorization"] }

/-- The development CORS preset: permissive any-origin
(src/tests/test_cors.py::test_cors_config_development). -/
def CORSConfig.development : CORSConfig :=
  { allow_origins := ["*"], allow_credentials := true,
    allow_methods := ["GET", "POST", "OPTIONS"],
    allow_headers := ["*"] }

/-- Modelled from the spec: which `Access-Control-Allow-Origin` value a
request with the given `Origin` receives — the reflected origin when the
origin is allowlisted (or under the any-origin preset), and no header at
all otherwise (§6). -/
def corsAllowOrigin (cfg : CORSConfig) (origin : String) : Option String :=
  if "*" ∈ cfg.allow_origins ∨ origin ∈ cfg.allow_origins then some origin
  else none

/-- The observable part of an HTTP response for the CORS claim: the status
code and the `Access-Control-Allow-Origin` header, if any. -/
structure HTTPResponse where
  status : Nat
  allow_origin : Option String
deriving DecidableEq, Repr

/-- Modelled from the spec: the CORS layer around a request handler that
answers with the given status — the request completes with the handler's
status either way; only the CORS header depends on the `Origin` (§6:
"non-listed origins receive a response with no CORS headers (request
still completes ...)"). -/
def handleWithCORS (cfg : CORSConfig) (origin : Option String) (handlerStatus : Nat) :
    HTTPResponse :=
  { status := handlerStatus,
    allow_origin :=
      match origin with
      | none => none
      | some o => corsAllowOrigin cfg o }

/-- What the availability probe of `check_wallet_available()` can come
back with: an HTTP response with some status code, or a transport failure
(connection error, timeout) raised by the HTTP library. -/
inductive ProbeResult where
  | response (status : Nat)
  | connectionError (msg : String)
deriving DecidableEq, Repr

/-- Modelled from the spec: `check_wallet_available()` of §4.6 — probes
`/wallet/status` and answers `true` exactly for an HTTP 200; every
transport failure is caught and turned into `false` rather than
propagated (src/tests/test_client.py::test_check_wallet_unavailable). -/
def check_wallet_available (probe : ProbeResult) : Bool :=
  match probe with
  | .response s => s == 200
  | .connectionError _ => false

/-
Helper lemmas about the rate limiter.
-/

/-- With no record on file, the attempt goes straight to the credential
check. -/
theorem attemptUnlock_none (ok : Bool) (now : Nat) :
    attemptUnlock none ok now =
      if ok then (.unlocked, none)
      else (.invalidPassword, some ⟨1, now, none⟩) := by
  cases ok <;>
    simp [attemptUnlock, purgeExpiredLock, rateLimitGate, lockoutThreshold]

/-- An unlocked record seen again before the required delay has elapsed:
rejected with the remaining wait, record untouched, password never
consulted. -/
theorem attemptUnlock_early (r : RateLimitRecord) (ok : Bool) (now : Nat)
    (hl : r.locked_until = none)
    (h : now - r.last_attempt < requiredDelay r.attempts) :
    attemptUnlock (some r) ok now =
      (.tooManyAttempts (requiredDelay r.attempts - (now - r.last_attempt)), some r) := by
  simp [attemptUnlock, purgeExpiredLock, rateLimitGate, hl, h]

/-- An unlocked record seen again after the required delay: the attempt
reaches the credential check; a failure increments the count, stamps the
time, and locks the source once the count reaches the threshold. -/
theorem attemptUnlock_pass (r : RateLimitRecord) (ok : Bool) (now : Nat)
    (hl : r.locked_until = none)
    (h : requiredDelay r.attempts ≤ now - r.last_attempt) :
    attemptUnlock (some r) ok now =
      if ok then (.unlocked, none)
      else (.invalidPassword, some ⟨r.attempts + 1, now,
        if lockoutThreshold ≤ r.attempts + 1 then some (now + lockoutDurationSeconds)
        else none⟩) := by
  cases ok <;>
    simp [attemptUnlock, purgeExpiredLock, rateLimitGate, hl, Nat.not_lt.mpr h]

/-- A locked record seen during the lock window: rejected with the
remaining lock duration, record untouched, password never consulted. -/
theorem attemptUnlock_locked (r : RateLimitRecord) (ok : Bool) (now u : Nat)
    (hl : r.locked_until = some u) (h : now < u) :
    attemptUnlock (some r) ok now = (.accountLocked (u - now), some r) := by
  simp [attemptUnlock, purgeExpiredLock, rateLimitGate, hl, h, Nat.not_le.mpr h]

/-- Claim C1: for every unlock-attempt sequence from one source, the
required delay before attempt n (n ≥ 2) is min(2^(n-2), 60) seconds since
the previous attempt: attempt 1 (no record on file) reaches the
credential check immediately; an attempt made before the required delay
has elapsed is rejected with TooManyAttempts carrying the remaining wait,
with the record (attempt count) unchanged and without consulting the
password (the credential check is not reached, for either password); an
attempt made once the delay has elapsed reaches the credential check. -/
theorem unlock_backoff_schedule (n t now : Nat) (r : RateLimitRecord) (ok : Bool)
    (hn : 2 ≤ n) (ha : r.attempts = n - 1) (hl : r.locked_until = none)
    (ht : r.last_attempt = t) (htn : t ≤ now) :
    (attemptUnlock none ok now =
       if ok then (.unlocked, none) else (.invalidPassword, some ⟨1, now, none⟩))
    ∧ (now - t < min (2 ^ (n - 2)) 60 →
       ∀ ok' : Bool, attemptUnlock (some r) ok' now =
         (.tooManyAttempts (min (2 ^ (n - 2)) 60 - (now - t)), some r))
    ∧ (min (2 ^ (n - 2)) 60 ≤ now - t →
       attemptUnlock (some r) ok now =
         if ok then (.unlocked, none)
         else (.invalidPassword, some ⟨n, now,
           if 5 ≤ n then some (now + 60) else none⟩)) := by
  have hd : requiredDelay r.attempts = min (2 ^ (n - 2)) 60 := by
    rw [ha]
    unfold requiredDelay maxDelaySeconds
    have he : n - 1 - 1 = n - 2 := by omega
    rw [he]
  refine ⟨attemptUnlock_none ok now, ?_, ?_⟩
  · intro hearly ok'
    rw [attemptUnlock_early r ok' now hl (by rw [hd, ht]; exact hearly)]
    rw [hd, ht]
  · intro hlate
    rw [attemptUnlock_pass r ok now hl (by rw [hd, ht]; exact hlate)]
    have hn1 : r.attempts + 1 = n := by omega
    simp only [hn1, lockoutThreshold, lockoutDurationSeconds]

/-- Witness for C1 at n = 2: with one failure on record at time 0, an
immediate retry is rejected with 1 second of remaining wait and an
unchanged record, while a retry at time 1 reaches the credential check. -/
theorem unlock_backoff_schedule_witness :
    attemptUnlock (some ⟨1, 0, none⟩) false 0 =
      (.tooManyAttempts 1, some ⟨1, 0, none⟩)
    ∧ attemptUnlock (some ⟨1, 0, none⟩) false 1 =
      (.invalidPassword, some ⟨2, 1, none⟩) := by
  have h := unlock_backoff_schedule 2 0 0 ⟨1, 0, none⟩ false (by decide) rfl rfl rfl
    (by decide)
  have h' := unlock_backoff_schedule 2 0 1 ⟨1, 0, none⟩ false (by decide) rfl rfl rfl
    (by decide)
  exact ⟨by simpa using h.2.1 (by decide) false, by simpa using h'.2.2 (by decide)⟩

/-- Claim C2: five failed credential checks from one source, each made
respecting the backoff schedule, leave a record of 5 attempts locked
until 60 seconds past the fifth; during that lockout window any further
attempt — whatever the password and however much of the backoff delay has
elapsed — is rejected with AccountLocked, the reported remaining wait is
at most 60 seconds, and the record (in particular the lock) is not
extended. -/
theorem unlock_lockout_after_five (t1 t2 t3 t4 t5 now : Nat) (ok : Bool)
    (h2 : t1 + 1 ≤ t2) (h3 : t2 + 2 ≤ t3) (h4 : t3 + 4 ≤ t4) (h5 : t4 + 8 ≤ t5)
    (hnow : t5 ≤ now) (hwin : now < t5 + 60) :
    runUnlocks none [(false, t1), (false, t2), (false, t3), (false, t4), (false, t5)] =
      ([.invalidPassword, .invalidPassword, .invalidPassword, .invalidPassword,
        .invalidPassword], some ⟨5, t5, some (t5 + 60)⟩)
    ∧ attemptUnlock (some ⟨5, t5, some (t5 + 60)⟩) ok now =
        (.accountLocked (t5 + 60 - now), some ⟨5, t5, some (t5 + 60)⟩)
    ∧ t5 + 60 - now ≤ 60 := by
  have d1 : requiredDelay 1 = 1 := by decide
  have d2 : requiredDelay 2 = 2 := by decide
  have d3 : requiredDelay 3 = 4 := by decide
  have d4 : requiredDelay 4 = 8 := by decide
  have s1 : attemptUnlock none false t1 = (.invalidPassword, some ⟨1, t1, none⟩) := by
    simpa using attemptUnlock_none false t1
  have s2 : attemptUnlock (some ⟨1, t1, none⟩) false t2 =
      (.invalidPassword, some ⟨2, t2, none⟩) := by
    rw [attemptUnlock_pass _ false t2 rfl (by show requiredDelay 1 ≤ t2 - t1; omega)]
    norm_num [lockoutThreshold]
  have s3 : attemptUnlock (some ⟨2, t2, none⟩) false t3 =
      (.invalidPassword, some ⟨3, t3, none⟩) := by
    rw [attemptUnlock_pass _ false t3 rfl (by show requiredDelay 2 ≤ t3 - t2; omega)]
    norm_num [lockoutThreshold]
  have s4 : attemptUnlock (some ⟨3, t3, none⟩) false t4 =
      (.invalidPassword, some ⟨4, t4, none⟩) := by
    rw [attemptUnlock_pass _ false t4 rfl (by show requiredDelay 3 ≤ t4 - t3; omega)]
    norm_num [lockoutThreshold]
  have s5 : attemptUnlock (some ⟨4, t4, none⟩) false t5 =
      (.invalidPassword, some ⟨5, t5, some (t5 + 60)⟩) := by
    rw [attemptUnlock_pass _ false t5 rfl (by show requiredDelay 4 ≤ t5 - t4; omega)]
    norm_num [lockoutThreshold, lockoutDurationSeconds]
  refine ⟨?_, attemptUnlock_locked _ ok now (t5 + 60) rfl hwin, by omega⟩
  simp [runUnlocks, s1, s2, s3, s4, s5]

/-- Witness for C2 with attempts at times 0, 1, 3, 7, 15 and a sixth
attempt (correct password) at time 16. -/
theorem unlock_lockout_after_five_witness :
    runUnlocks none [(false, 0), (false, 1), (false, 3), (false, 7), (false, 15)] =
      ([.invalidPassword, .invalidPassword, .invalidPassword, .invalidPassword,
        .invalidPassword], some ⟨5, 15, some 75⟩)
    ∧ attemptUnlock (some ⟨5, 15, some 75⟩) true 16 =
        (.accountLocked 59, some ⟨5, 15, some 75⟩)
    ∧ 75 - 16 ≤ 60 := by
  have h := unlock_lockout_after_five 0 1 3 7 15 16 true (by decide) (by decide)
    (by decide) (by decide) (by decide) (by decide)
  exact ⟨h.1, h.2.1, h.2.2⟩

/-- An expired lock is purged on the next attempt: the attempt behaves as
if no record were on file. -/
theorem attemptUnlock_lockExpired (r : RateLimitRecord) (ok : Bool) (now u : Nat)
    (hl : r.locked_until = some u) (h : u ≤ now) :
    attemptUnlock (some r) ok now = attemptUnlock none ok now := by
  simp [attemptUnlock, purgeExpiredLock, hl, h]

/-- When an unlock attempt answers `unlocked`, the record it leaves
behind is `none` (the record was cleared). -/
theorem attemptUnlock_unlocked_clears (rec? : Option RateLimitRecord) (ok : Bool)
    (now : Nat) (h : (attemptUnlock rec? ok now).1 = .unlocked) :
    attemptUnlock rec? ok now = (.unlocked, none) := by
  rcases rec? with _ | r
  · rw [attemptUnlock_none] at h ⊢
    cases ok with
    | true => simp
    | false => simp at h
  · rcases hr : r.locked_until with _ | u
    · by_cases hdel : now - r.last_attempt < requiredDelay r.attempts
      · rw [attemptUnlock_early r ok now hr hdel] at h
        simp at h
      · rw [attemptUnlock_pass r ok now hr (Nat.not_lt.mp hdel)] at h ⊢
        cases ok with
        | true => simp
        | false => simp at h
    · by_cases hnow : now < u
      · rw [attemptUnlock_locked r ok now u hr hnow] at h
        simp at h
      · rw [attemptUnlock_lockExpired r ok now u hr (Nat.not_lt.mp hnow),
          attemptUnlock_none] at h ⊢
        cases ok with
        | true => simp
        | false => simp at h

/-- Erasing a source's record really removes it from the table. -/
theorem lookupRecord_erase (m : UnlockAttempts) (src : String) :
    lookupRecord (setRecord m src none) src = none := by
  unfold lookupRecord setRecord
  have hfind : (m.filter (fun e => ¬ e.1 = src)).find? (fun e => e.1 = src) = none := by
    rw [List.find?_eq_none]
    intro x hx
    have hmem := List.mem_filter.mp hx
    simpa using hmem.2
  rw [hfind]
  rfl

/-- Claim C6: a successful unlock from any source clears that source's
rate-limit record entirely (no record remains for the source, so the
attempt count is zero and no lock is held), and the next wrong-password
attempt from the same source, at any later time whatsoever, reaches the
credential check immediately (it is answered with the 401
invalid-password outcome, not a rate-limit rejection). -/
theorem unlock_success_clears_rate_limiting (m : UnlockAttempts) (src : String)
    (now : Nat) (h : (serverUnlock m src true now).1 = .unlocked) :
    lookupRecord (serverUnlock m src true now).2 src = none
    ∧ ∀ now' : Nat,
        (serverUnlock (serverUnlock m src true now).2 src false now').1 =
          .invalidPassword := by
  have hu : attemptUnlock (lookupRecord m src) true now = (.unlocked, none) :=
    attemptUnlock_unlocked_clears _ true now h
  have hm : (serverUnlock m src true now).2 = setRecord m src none := by
    show setRecord m src (attemptUnlock (lookupRecord m src) true now).2 =
      setRecord m src none
    rw [hu]
  constructor
  · rw [hm]
    exact lookupRecord_erase m src
  · intro now'
    rw [hm]
    show (attemptUnlock (lookupRecord (setRecord m src none) src) false now').1 =
      .invalidPassword
    rw [lookupRecord_erase, attemptUnlock_none]
    rfl

/-- Witness for C6: a source with three failures on record unlocks
successfully at time 100; the record is gone and an immediate wrong
password gets the plain 401. -/
theorem unlock_success_clears_rate_limiting_witness :
    lookupRecord (serverUnlock [("ip1", ⟨3, 0, none⟩)] "ip1" true 100).2 "ip1" = none
    ∧ ∀ now' : Nat,
        (serverUnlock (serverUnlock [("ip1", ⟨3, 0, none⟩)] "ip1" true 100).2 "ip1"
          false now').1 = .invalidPassword :=
  unlock_success_clears_rate_limiting [("ip1", ⟨3, 0, none⟩)] "ip1" 100 rfl

/-
Helper lemmas about the request registry.
-/

/-- A creation call with an input failing body validation is rejected as
an invalid request, whatever the registry holds. -/
theorem createRequest_invalid (st : RegistryState) (i : CreateInput)
    (h : validInput i = false) :
    createRequest st i.app_name i.app_url i.permissions i.description =
      .error .invalidRequest := by
  unfold validInput at h
  rcases hps : parsePermissions i.permissions with _ | ps
  · simp [createRequest, hps]
  · rw [hps] at h
    simp at h
    simp [createRequest, hps, h]

/-- Unfolding characterization of body validation. -/
theorem validInput_iff (i : CreateInput) :
    validInput i = true ↔
      ∃ ps, parsePermissions i.permissions = some ps ∧ ps.isEmpty = false := by
  unfold validInput
  rcases h : parsePermissions i.permissions with _ | ps <;> simp

/-- A valid creation call against a registry at (or beyond) capacity is
rejected with `TooManyPendingRequests`. -/
theorem createRequest_atCapacity (st : RegistryState) (i : CreateInput)
    (hvi : validInput i = true)
    (hat : ProtocolConfig.MAX_SESSIONS ≤ st.pending.length) :
    createRequest st i.app_name i.app_url i.permissions i.description =
      .error .tooManyPendingRequests := by
  obtain ⟨ps, hps, hne⟩ := (validInput_iff i).mp hvi
  simp [createRequest, hps, hne, hat]

/-- A valid creation call below capacity succeeds and appends the new
request, with the permission list deduplicated. -/
theorem createRequest_success (st : RegistryState) (a u : String)
    (names : List String) (d : Option String) (ps : List Permission)
    (hps : parsePermissions names = some ps) (hne : ps.isEmpty = false)
    (hcap : st.pending.length < ProtocolConfig.MAX_SESSIONS) :
    createRequest st a u names d =
      .ok (st.next_id,
        { pending := st.pending ++
            [{ request_id := st.next_id, app_name := a, app_url := u,
               permissions := ps.dedup, description := d, status := "pending" }],
          sessions := st.sessions, next_id := st.next_id + 1 }) := by
  simp [createRequest, hps, hne, Nat.not_le.mpr hcap]

/-- How a run of valid creation calls evolves the registry: the number of
successes and the final pending count are governed by the capacity bound. -/
theorem runCreates_spec (inputs : List CreateInput) (st : RegistryState)
    (hv : ∀ i ∈ inputs, validInput i = true)
    (hL : st.pending.length ≤ ProtocolConfig.MAX_SESSIONS) :
    (runCreates st inputs).1 =
      min inputs.length (ProtocolConfig.MAX_SESSIONS - st.pending.length)
    ∧ (runCreates st inputs).2.pending.length =
      min (st.pending.length + inputs.length) ProtocolConfig.MAX_SESSIONS := by
  induction inputs generalizing st with
  | nil =>
    refine ⟨?_, ?_⟩ <;> simp only [runCreates, List.length_nil] <;> omega
  | cons i rest ih =>
    have hvi : validInput i = true := hv i (List.mem_cons_self i rest)
    have hvrest : ∀ j ∈ rest, validInput j = true :=
      fun j hj => hv j (List.mem_cons_of_mem i hj)
    obtain ⟨ps, hps, hne⟩ := (validInput_iff i).mp hvi
    by_cases hcap : ProtocolConfig.MAX_SESSIONS ≤ st.pending.length
    · have hrej := createRequest_atCapacity st i hvi hcap
      have hrec := ih st hvrest hL
      refine ⟨?_, ?_⟩
      · simp only [runCreates, hrej]
        rw [hrec.1]
        simp only [List.length_cons]
        omega
      · simp only [runCreates, hrej]
        rw [hrec.2]
        simp only [List.length_cons]
        omega
    · have hok := createRequest_success st i.app_name i.app_url i.permissions
        i.description ps hps hne (Nat.not_le.mp hcap)
      set st' : RegistryState :=
        { pending := st.pending ++
            [{ request_id := st.next_id, app_name := i.app_name,
               app_url := i.app_url, permissions := ps.dedup,
               description := i.description, status := "pending" }],
          sessions := st.sessions, next_id := st.next_id + 1 } with hst'
      have hlen : st'.pending.length = st.pending.length + 1 := by
        rw [hst']
        simp
      have hrec := ih st' hvrest (by omega)
      refine ⟨?_, ?_⟩
      · simp only [runCreates, hok]
        rw [hrec.1]
        simp only [List.length_cons, hlen]
        omega
      · simp only [runCreates, hok]
        rw [hrec.2]
        simp only [List.length_cons, hlen]
        omega

/-- Claim C3: at most `MAX_SESSIONS` (10) pending authorization requests
ever exist — a registry at capacity rejects every further valid creation
call with `TooManyPendingRequests` and keeps its state (no pending
request or session is evicted), and a run of N > MAX_SESSIONS valid
creation calls against the fresh registry yields exactly `MAX_SESSIONS`
successes (so the remaining N - MAX_SESSIONS calls fail) and leaves
exactly `MAX_SESSIONS` pending requests. -/
theorem max_pending_requests_enforced (st : RegistryState) (i : CreateInput)
    (inputs : List CreateInput)
    (hvi : validInput i = true)
    (hat : ProtocolConfig.MAX_SESSIONS ≤ st.pending.length)
    (hv : ∀ j ∈ inputs, validInput j = true)
    (hbig : ProtocolConfig.MAX_SESSIONS < inputs.length) :
    createRequest st i.app_name i.app_url i.permissions i.description =
      .error .tooManyPendingRequests
    ∧ runCreates st [i] = (0, st)
    ∧ (runCreates RegistryState.empty inputs).1 = ProtocolConfig.MAX_SESSIONS
    ∧ (runCreates RegistryState.empty inputs).2.pending.length =
        ProtocolConfig.MAX_SESSIONS := by
  have hrej := createRequest_atCapacity st i hvi hat
  have hrun := runCreates_spec inputs RegistryState.empty hv
    (by simp [RegistryState.empty])
  refine ⟨hrej, ?_, ?_, ?_⟩
  · simp [runCreates, hrej]
  · rw [hrun.1]
    simp [RegistryState.empty]
    omega
  · rw [hrun.2]
    simp [RegistryState.empty]
    omega

/-- Witness for C3: a registry holding 10 pending requests rejects an
11th creation call, and 11 creation calls from the fresh registry produce
exactly 10 pending requests. -/
theorem max_pending_requests_enforced_witness :
    createRequest
      { pending := List.replicate 10
          { request_id := 0, app_name := "App", app_url := "http://app.com",
            permissions := [.walletInfo], description := none, status := "pending" },
        sessions := [], next_id := 10 }
      "Overflow App" "http://overflow.com" ["wallet_info"] none =
      .error .tooManyPendingRequests
    ∧ runCreates
        { pending := List.replicate 10
            { request_id := 0, app_name := "App", app_url := "http://app.com",
              permissions := [.walletInfo], description := none, status := "pending" },
          sessions := [], next_id := 10 }
        [⟨"Overflow App", "http://overflow.com", ["wallet_info"], none⟩] =
        (0, { pending := List.replicate 10
                { request_id := 0, app_name := "App", app_url := "http://app.com",
                  permissions := [.walletInfo], description := none, status := "pending" },
              sessions := [], next_id := 10 })
    ∧ (runCreates RegistryState.empty
        (List.replicate 11 ⟨"App", "http://app.com", ["wallet_info"], none⟩)).1 =
        ProtocolConfig.MAX_SESSIONS
    ∧ (runCreates RegistryState.empty
        (List.replicate 11 ⟨"App", "http://app.com", ["wallet_info"], none⟩)).2.pending.length =
        ProtocolConfig.MAX_SESSIONS := by
  have h := max_pending_requests_enforced
    { pending := List.replicate 10
        { request_id := 0, app_name := "App", app_url := "http://app.com",
          permissions := [.walletInfo], description := none, status := "pending" },
      sessions := [], next_id := 10 }
    ⟨"Overflow App", "http://overflow.com", ["wallet_info"], none⟩
    (List.replicate 11 ⟨"App", "http://app.com", ["wallet_info"], none⟩)
    (by decide) (by decide) (by decide) (by decide)
  exact h

/-- After removing every pending request with a given id, a lookup of
that id finds nothing. -/
theorem find?_after_removal (l : List PendingRequest) (rid : Nat) :
    (l.filter (fun r => ¬ r.request_id == rid)).find?
      (fun r => r.request_id == rid) = none := by
  rw [List.find?_eq_none]
  intro x hx
  have hmem := List.mem_filter.mp hx
  simpa using hmem.2

/-- Claim C4: approving a pending authorization request exactly once
yields a Session whose permission set equals the request's permission
set; the request is consumed, so approving the same request id a second
time fails with `InvalidState`, and likewise denying it afterwards fails
with `InvalidState` — a request is acted on at most once and never
double-transitions. -/
theorem approve_once_only (st : RegistryState) (rid : Nat) (req : PendingRequest)
    (hfind : st.pending.find? (fun r => r.request_id == rid) = some req) :
    ∃ sess st',
      approve st rid = .ok (sess, st')
      ∧ sess.permissions = req.permissions
      ∧ approve st' rid = .error .invalidState
      ∧ deny st' rid = .error .invalidState := by
  have happ : approve st rid = .ok
      ({ token := "tok" ++ Nat.repr st.next_id, app_name := req.app_name,
         app_url := req.app_url, permissions := req.permissions },
       { pending := st.pending.filter (fun r => ¬ r.request_id == rid),
         sessions := st.sessions ++
           [{ token := "tok" ++ Nat.repr st.next_id, app_name := req.app_name,
              app_url := req.app_url, permissions := req.permissions }],
         next_id := st.next_id + 1 }) := by
    simp [approve, hfind]
  refine ⟨_, _, happ, rfl, ?_, ?_⟩
  · simp only [approve]
    rw [find?_after_removal]
  · simp only [deny]
    rw [find?_after_removal]

/-- Witness for C4 on a registry holding one pending request. -/
theorem approve_once_only_witness :
    ∃ sess st',
      approve
        ({ pending :=
             [{ request_id := 0, app_name := "Test DApp",
                app_url := "https://testdapp.com",
                permissions := [.walletInfo, .balance], description := none,
                status := "pending" }],
           sessions := [], next_id := 1 } : RegistryState) 0 = .ok (sess, st')
      ∧ sess.permissions =
          ({ request_id := 0, app_name := "Test DApp",
             app_url := "https://testdapp.com",
             permissions := [.walletInfo, .balance], description := none,
             status := "pending" } : PendingRequest).permissions
      ∧ approve st' 0 = .error .invalidState
      ∧ deny st' 0 = .error .invalidState :=
  approve_once_only _ 0 _ rfl

/-- Counterexample for C5 as stated: a creation call with an empty
permission list is not allowed — it is rejected as an invalid request
(the in-tree test test_auth.py::test_auth_request_empty_permissions
asserts exactly this 422 rejection). -/
theorem create_empty_permissions_rejected :
    createRequest RegistryState.empty "Test DApp" "https://testdapp.com" [] none =
      .error .invalidRequest := rfl

/-- Claim C5 (amended): for every creation call, the permission names are
validated against the known permission enum (a list containing an unknown
name is rejected as invalid) and the stored permission list is
deduplicated — it is duplicate-free and has exactly the members of the
parsed input, so its size is the number of distinct permissions in the
input; a creation call with an empty permission list is rejected as
invalid rather than accepted. -/
theorem create_validates_and_deduplicates (st : RegistryState) (a u : String)
    (names : List String) (d : Option String) (ps : List Permission)
    (hps : parsePermissions names = some ps) (hne : ps.isEmpty = false)
    (hcap : st.pending.length < ProtocolConfig.MAX_SESSIONS) :
    createRequest st a u names d =
      .ok (st.next_id,
        { pending := st.pending ++
            [{ request_id := st.next_id, app_name := a, app_url := u,
               permissions := ps.dedup, description := d, status := "pending" }],
          sessions := st.sessions, next_id := st.next_id + 1 })
    ∧ ps.dedup.Nodup
    ∧ (∀ p : Permission, p ∈ ps.dedup ↔ p ∈ ps)
    ∧ (∀ names' : List String, parsePermissions names' = none →
        createRequest st a u names' d = .error .invalidRequest)
    ∧ createRequest st a u [] d = .error .invalidRequest := by
  refine ⟨createRequest_success st a u names d ps hps hne hcap, List.nodup_dedup ps,
    fun p => List.mem_dedup, fun names' hbad => ?_, ?_⟩
  · simp [createRequest, hbad]
  · simp [createRequest, parsePermissions]

/-- Witness for C5 (amended) on the duplicated list of the in-tree test:
["wallet_info", "wallet_info", "balance"] is stored with exactly the two
distinct permissions. -/
theorem create_validates_and_deduplicates_witness :
    createRequest RegistryState.empty "Test DApp" "https://testdapp.com"
      ["wallet_info", "wallet_info", "balance"] none =
      .ok (0,
        { pending :=
            [{ request_id := 0, app_name := "Test DApp",
               app_url := "https://testdapp.com",
               permissions := [Permission.walletInfo, Permission.walletInfo,
                 Permission.balance].dedup,
               description := none, status := "pending" }],
          sessions := [], next_id := 1 })
    ∧ [Permission.walletInfo, Permission.walletInfo, Permission.balance].dedup.Nodup
    ∧ (∀ p : Permission,
        p ∈ [Permission.walletInfo, Permission.walletInfo, Permission.balance].dedup ↔
        p ∈ [Permission.walletInfo, Permission.walletInfo, Permission.balance])
    ∧ (∀ names' : List String, parsePermissions names' = none →
        createRequest RegistryState.empty "Test DApp" "https://testdapp.com" names'
          none = .error .invalidRequest)
    ∧ createRequest RegistryState.empty "Test DApp" "https://testdapp.com" [] none =
        .error .invalidRequest :=
  create_validates_and_deduplicates RegistryState.empty "Test DApp"
    "https://testdapp.com" ["wallet_info", "wallet_info", "balance"] none
    [Permission.walletInfo, Permission.walletInfo, Permission.balance]
    rfl rfl (by decide)

/-
Helper lemmas about the client cache.
-/

/-- Setting a key makes its lookup return the fresh value and timestamp. -/
theorem cacheLookup_set (c : ClientCache) (k v : String) (now : Nat) :
    cacheLookup (setCache c k v now) k = some (v, now) := by
  simp [cacheLookup, setCache, List.find?]

/-- Unfolding equation for cache lookup on a nonempty cache. -/
theorem cacheLookup_cons (e : String × String × Nat) (rest : ClientCache)
    (key : String) :
    cacheLookup (e :: rest) key =
      if e.1 = key then some e.2 else cacheLookup rest key := by
  by_cases h : e.1 = key <;> simp [cacheLookup, List.find?, h]

/-- Unfolding equation for the pattern clear on a nonempty cache. -/
theorem clearCachePattern_cons (e : String × String × Nat) (rest : ClientCache)
    (pat : String) :
    clearCachePattern (e :: rest) pat =
      if e.1.startsWith pat then clearCachePattern rest pat
      else e :: clearCachePattern rest pat := by
  by_cases h : e.1.startsWith pat <;> simp [clearCachePattern, List.filter_cons, h]

/-- Clearing by pattern removes exactly the keys starting with it. -/
theorem cacheLookup_clear (c : ClientCache) (pat key : String) :
    cacheLookup (clearCachePattern c pat) key =
      if key.startsWith pat then none else cacheLookup c key := by
  induction c with
  | nil => simp [cacheLookup, clearCachePattern]
  | cons e rest ih =>
    by_cases hp : e.1.startsWith pat
    · rw [clearCachePattern_cons, if_pos hp, ih, cacheLookup_cons]
      by_cases hkp : key.startsWith pat
      · rw [if_pos hkp, if_pos hkp]
      · rw [if_neg hkp, if_neg hkp]
        have hk : ¬ e.1 = key := fun h => hkp (h ▸ hp)
        rw [if_neg hk]
    · rw [clearCachePattern_cons, if_neg hp, cacheLookup_cons, ih, cacheLookup_cons]
      by_cases hk : e.1 = key
      · have hkp : ¬ key.startsWith pat := hk ▸ hp
        rw [if_pos hk, if_neg hkp, if_pos hk]
      · rw [if_neg hk, if_neg hk]

/-- Claim C7: `set(k, v)` followed immediately by `get(k, ttl)` with
ttl > 0 returns v; `get` returns the stored value exactly when
`now - stored_at < ttl`; an entry whose timestamp is older than the TTL
is treated as absent but is not removed — it is still stored and a get
with a large enough TTL still returns it; `clear_matching(pat)` removes
exactly the entries whose keys start with `pat`, leaving every other
entry's get behaviour unchanged. -/
theorem cache_ttl_and_clear (c : ClientCache) (k v w pat : String)
    (ttl now t : Nat) (httl : 0 < ttl) (hentry : cacheLookup c k = some (v, t)) :
    getCached (setCache c k w now) k ttl now = some w
    ∧ (getCached c k ttl now = some v ↔ now - t < ttl)
    ∧ (ttl ≤ now - t →
        getCached c k ttl now = none
        ∧ cacheLookup c k = some (v, t)
        ∧ ∀ ttl' : Nat, now - t < ttl' → getCached c k ttl' now = some v)
    ∧ (∀ key : String,
        getCached (clearCachePattern c pat) key ttl now =
          if key.startsWith pat then none else getCached c key ttl now) := by
  refine ⟨?_, ?_, ?_, ?_⟩
  · simp [getCached, cacheLookup_set, httl]
  · simp only [getCached, hentry]
    constructor
    · intro h
      by_contra hlt
      simp [hlt] at h
    · intro h
      simp [h]
  · intro hexp
    refine ⟨?_, hentry, ?_⟩
    · simp [getCached, hentry, Nat.not_lt.mpr hexp]
    · intro ttl' h
      simp [getCached, hentry, h]
  · intro key
    rw [getCached, cacheLookup_clear]
    by_cases hkey : key.startsWith pat
    · simp [hkey]
    · simp only [hkey, if_false]
      rfl

/-- Witness for C7 with a one-entry cache stored at time 0, read at time
100 under TTL 60 (expired) and TTL 101 (still served), plus a fresh set
and a pattern clear. -/
theorem cache_ttl_and_clear_witness :
    getCached (setCache [("balance_xsc001", "100", 0)] "balance_xsc001" "50" 100)
      "balance_xsc001" 60 100 = some "50"
    ∧ (getCached [("balance_xsc001", "100", 0)] "balance_xsc001" 60 100 = some "100"
        ↔ 100 - 0 < 60)
    ∧ (60 ≤ 100 - 0 →
        getCached [("balance_xsc001", "100", 0)] "balance_xsc001" 60 100 = none
        ∧ cacheLookup [("balance_xsc001", "100", 0)] "balance_xsc001" =
            some ("100", 0)
        ∧ ∀ ttl' : Nat, 100 - 0 < ttl' →
            getCached [("balance_xsc001", "100", 0)] "balance_xsc001" ttl' 100 =
              some "100")
    ∧ (∀ key : String,
        getCached (clearCachePattern [("balance_xsc001", "100", 0)] "balance_")
          key 60 100 =
          if key.startsWith "balance_" then none
          else getCached [("balance_xsc001", "100", 0)] key 60 100) :=
  cache_ttl_and_clear [("balance_xsc001", "100", 0)] "balance_xsc001" "100" "50"
    "balance_" 60 100 0 (by decide) rfl

/-- Claim C8: after `disconnect()` the client's session token is cleared,
its local cache is empty (size zero), its stored wallet info is cleared,
and the push (WebSocket) and HTTP connections are closed — whatever state
the client held before. -/
theorem disconnect_clears_client_state (c : AsyncClientState) :
    (disconnect c).session_token = none
    ∧ (disconnect c).cache.length = 0
    ∧ (disconnect c).wallet_info = none
    ∧ (disconnect c).websocket_open = false
    ∧ (disconnect c).http_client_open = false := by
  simp [disconnect]

/-- Claim C9: under an explicit-allowlist CORS policy, a request whose
`Origin` is allowlisted completes with the handler's status and carries
the reflected `Access-Control-Allow-Origin` header equal to that origin,
while a request from a non-listed origin completes with the same status
but carries no allow-origin header at all. -/
theorem cors_reflects_only_allowlisted (origins : List String) (o : String)
    (handlerStatus : Nat) (hstar : "*" ∉ origins) :
    (o ∈ origins →
      handleWithCORS (CORSConfig.production origins) (some o) handlerStatus =
        { status := handlerStatus, allow_origin := some o })
    ∧ (o ∉ origins →
      handleWithCORS (CORSConfig.production origins) (some o) handlerStatus =
        { status := handlerStatus, allow_origin := none }) := by
  constructor <;> intro h <;>
    simp [handleWithCORS, corsAllowOrigin, CORSConfig.production, h, hstar]

/-- Witness for C9 with the production allowlist of
src/tests/test_cors.py::test_production_cors_specific_origins: the listed
origin is reflected, the malicious one gets no CORS header, both with
status 200. -/
theorem cors_reflects_only_allowlisted_witness :
    handleWithCORS (CORSConfig.production ["https://mydapp.com"])
      (some "https://mydapp.com") 200 =
      { status := 200, allow_origin := some "https://mydapp.com" }
    ∧ handleWithCORS (CORSConfig.production ["https://mydapp.com"])
        (some "https://malicious-site.com") 200 =
      { status := 200, allow_origin := none } :=
  ⟨(cors_reflects_only_allowlisted ["https://mydapp.com"] "https://mydapp.com" 200
      (by decide)).1 (by decide),
   (cors_reflects_only_allowlisted ["https://mydapp.com"] "https://malicious-site.com"
      200 (by decide)).2 (by decide)⟩

/-- Claim C10: `check_wallet_available()` never raises — it is a total
function of the probe's outcome: it answers true exactly when the status
probe comes back with HTTP 200, and answers false (rather than
propagating the exception) for every probe failure such as a connection
error, and for every non-200 status. -/
theorem check_wallet_available_never_raises (s : Nat) (m : String) :
    check_wallet_available (.response 200) = true
    ∧ check_wallet_available (.connectionError m) = false
    ∧ (check_wallet_available (.response s) = true ↔ s = 200) := by
  refine ⟨rfl, rfl, ?_⟩
  simp [check_wallet_available]

end XianUWP
